import Mathlib

/-
Verification of the NEMA connector shape generators (conductors.py /
make_svgs.py) against their natural-language specification.

The Python classes are embedded shallowly: each conductor class becomes a
Lean structure, its `__init__` becomes an `init`/`make` function, and its
`draw` method becomes a function producing the abstract SVG element it
pushes into the drawing sink (a path-command list together with its
fill/stroke/transform attributes).  Python floats are modelled as members
of a linear ordered field (instantiated at ℚ where the code is purely
arithmetic, and at ℝ where the code calls trigonometric functions from
`math`/`cmath`).  Python exceptions become `Except` errors:
`ValueError` raised in a constructor is `ConstructionError.invalidArgument`;
`math.asin` on an argument outside [-1, 1] is `DrawError.domainError`;
`assert color != 'white'` is `DrawError.unsupportedStyling`; the
`assert False` on the unimplemented nonnegative-hook-length branch is
`DrawError.assertionFailed`.
-/

namespace NEMA

/-- Global constant from make_svgs.py: `OUTLINE_WIDTH = 0.01`. -/
def OUTLINE_WIDTH {α : Type} [LinearOrderedField α] : α := 1 / 100

/-- Failures raised inside a Python `__init__`. -/
inductive ConstructionError
  | invalidArgument
  deriving DecidableEq

/-- Failures raised inside a Python `draw` method. -/
inductive DrawError
  | unsupportedStyling
  | domainError
  | assertionFailed
  deriving DecidableEq

/-- One SVG path command as pushed by the code onto an svgwrite path:
absolute/relative moves and lines, elliptical arcs (with the svgwrite
`push_arc` arguments: target, x-rotation, radius, large-arc flag,
absolute flag, sweep direction string), and close-path. -/
inductive PathCmd (α : Type)
  | moveA (p : α × α)
  | moveR (p : α × α)
  | lineHR (d : α)
  | lineVR (d : α)
  | lineHA (x : α)
  | lineVA (y : α)
  | lineA (p : α × α)
  | arc (target : α × α) (rotation : α) (r : α) (largeArc : Bool) (absolute : Bool)
        (angleDir : String)
  | close
  deriving DecidableEq

/-- The transform attribute strings the code formats, kept structured. -/
inductive Transform (α : Type)
  | translateRotate (x rot : α)
  | translateXYRotate (x y rot : α)
  | rotateAbout (rot x y : α)
  deriving DecidableEq

/-- An svgwrite path element: fill/stroke attributes, optional transform,
and the pushed command sequence. -/
structure Path (α : Type) where
  fill : String
  stroke : Option String := none
  strokeWidth : Option α := none
  transform : Option (Transform α) := none
  commands : List (PathCmd α)
  deriving DecidableEq

/-- An svgwrite rect element (as produced by `drawing.rect`). -/
structure Rect (α : Type) where
  insert : α × α
  size : α × α
  fill : String
  stroke : Option String := none
  strokeWidth : Option α := none
  deriving DecidableEq

/-- An svgwrite circle element (as produced by `drawing.circle`). -/
structure Circle (α : Type) where
  center : α × α
  r : α
  fill : String
  stroke : Option String := none
  strokeWidth : Option α := none
  deriving DecidableEq

/-- Python `math.copysign(x, y)`: the magnitude of `x` with the sign of
`y`, the sign of zero being positive (Python's exact `0.0` is positive). -/
def copysign {α : Type} [LinearOrderedField α] (x y : α) : α :=
  if y < 0 then -|x| else |x|

/-- True when an arc path command has its large-arc flag set. -/
def PathCmd.isLargeArc {α : Type} : PathCmd α → Bool
  | .arc _ _ _ la _ _ => la
  | _ => false

/-- Every arc command of the path has large-arc = false. -/
def Path.noLargeArc {α : Type} (p : Path α) : Bool :=
  p.commands.all (fun cmd => !cmd.isLargeArc)

/-! ### DConductor (RoundedTab, the "D" shape) -/

structure DConductor (α : Type) where
  width : α
  height : α
  x : α
  y : α
  rotation : α
  deriving DecidableEq

/-- Commands of the `width >= height` branch of `DConductor.draw`:
horizontal straight sides of length `width - height/2` and the
semicircular cap on the x-extent end. -/
def DConductor.widthCommands {α : Type} [LinearOrderedField α]
    (c : DConductor α) (xo yo : α) : List (PathCmd α) :=
  [ .moveA (xo - c.width / 2, yo - c.height / 2),
    .lineHR (c.width - c.height / 2),
    .arc (0, c.height) 0 (c.height / 2) true false ("+"),
    .lineHR (-(c.width - c.height / 2)),
    .close ]

/-- Commands of the `width < height` branch of `DConductor.draw`. -/
def DConductor.heightCommands {α : Type} [LinearOrderedField α]
    (c : DConductor α) (xo yo : α) : List (PathCmd α) :=
  [ .moveA (xo - c.width / 2, yo - c.height / 2),
    .lineVR (c.height - c.width / 2),
    .arc (c.width, 0) 0 (c.width / 2) true false ("-"),
    .lineVR (-(c.height - c.width / 2)),
    .close ]

/-- Path commands of `DConductor.draw` at the offsets selected by the
rotation test (`if self.width >= self.height` chooses the branch). -/
def DConductor.commandsAt {α : Type} [LinearOrderedField α]
    (c : DConductor α) (xo yo : α) : List (PathCmd α) :=
  if c.width ≥ c.height then c.widthCommands xo yo else c.heightCommands xo yo

/-- `DConductor.draw` from conductors.py: a filled path, white fill given
a black outline, rotation applied as a transform with zeroed offsets. -/
def DConductor.draw {α : Type} [LinearOrderedField α]
    (c : DConductor α) (color : String) : Path α :=
  { fill := color,
    stroke := if color = "white" then some ("black") else none,
    strokeWidth := if color = "white" then some OUTLINE_WIDTH else none,
    transform :=
      if c.rotation = 0 then none
      else if c.y = 0 then some (.translateRotate c.x c.rotation)
      else some (.translateXYRotate c.x c.y c.rotation),
    commands :=
      c.commandsAt (if c.rotation = 0 then c.x else 0)
        (if c.rotation = 0 then c.y else 0) }

/-! ### IConductor (Bar, the "I" shape) -/

structure IConductor (α : Type) where
  width : α
  height : α
  x : α
  y : α
  deriving DecidableEq

/-- `IConductor.draw` from conductors.py. -/
def IConductor.draw {α : Type} [LinearOrderedField α]
    (c : IConductor α) (color : String) : Rect α :=
  { insert := (c.x - c.width / 2, c.y - c.height / 2),
    size := (c.width, c.height),
    fill := color,
    stroke := if color = "white" then some ("black") else none,
    strokeWidth := if color = "white" then some OUTLINE_WIDTH else none }

/-! ### LConductor (Bend, the "L" shape) -/

structure LConductor (α : Type) where
  width : α
  start : α × α
  end_ : α × α
  sweep_dir : String
  x_sign : α
  y_sign : α
  x_first : Bool
  deriving DecidableEq

/-- Field assignments of `LConductor.__init__` (performed after the
sweep-direction validation): the delta signs via `math.copysign` and the
x-segment-first flag. -/
def LConductor.make {α : Type} [LinearOrderedField α]
    (width : α) (start end_ : α × α) (sweep_dir : String) : LConductor α :=
  let x_sign := copysign 1 (end_.1 - start.1)
  let y_sign := copysign 1 (end_.2 - start.2)
  { width := width, start := start, end_ := end_, sweep_dir := sweep_dir,
    x_sign := x_sign, y_sign := y_sign,
    x_first :=
      if x_sign = y_sign then decide (sweep_dir = "+")
      else decide (sweep_dir = "-") }

/-- `LConductor.__init__`: raises `ValueError` unless the sweep direction
is one of the two recognized symbols. -/
def LConductor.init {α : Type} [LinearOrderedField α]
    (width : α) (start end_ : α × α) (sweep_dir : String) :
    Except ConstructionError (LConductor α) :=
  if sweep_dir = "+" ∨ sweep_dir = "-" then
    .ok (LConductor.make width start end_ sweep_dir)
  else .error .invalidArgument

/-- `LConductor.draw`: asserts the color is not white, then emits the
stroked two-segment path with the rounded corner. -/
def LConductor.draw {α : Type} [LinearOrderedField α]
    (c : LConductor α) (color : String) : Except DrawError (Path α) :=
  if color = "white" then .error .unsupportedStyling
  else .ok
    { fill := "none", stroke := some color, strokeWidth := some c.width,
      commands :=
        [ .moveA c.start,
          if c.x_first then
            PathCmd.lineHR (c.end_.1 - c.start.1 - c.x_sign * c.width / 2)
          else
            PathCmd.lineVR (c.end_.2 - c.start.2 - c.y_sign * c.width / 2),
          .arc (c.width / 2 * c.x_sign, c.width / 2 * c.y_sign) 0 (c.width / 2)
            false false c.sweep_dir,
          if c.x_first then PathCmd.lineVA c.end_.2
          else PathCmd.lineHA c.end_.1 ] }

/-! ### OConductor (Pad, the "O" shape) -/

structure OConductor (α : Type) where
  radius : α
  x : α
  y : α
  deriving DecidableEq

/-- `OConductor.__init__`: stores half the diameter. -/
def OConductor.init {α : Type} [LinearOrderedField α]
    (diameter x y : α) : OConductor α :=
  { radius := diameter / 2, x := x, y := y }

/-- `OConductor.draw` from conductors.py. -/
def OConductor.draw {α : Type} [LinearOrderedField α]
    (c : OConductor α) (color : String) : Circle α :=
  { center := (c.x, c.y), r := c.radius, fill := color,
    stroke := if color = "white" then some ("black") else none,
    strokeWidth := if color = "white" then some OUTLINE_WIDTH else none }

/-! ### TConductor (Cross, the "T" shape) -/

structure TConductor (α : Type) where
  width : α
  crossbar_length : α
  vertical_length : α
  x : α
  y : α
  rotation : α
  deriving DecidableEq

/-- `TConductor.draw`: asserts the color is not white, then emits the
crossbar plus the vertical arm shortened by half the stroke width. -/
def TConductor.draw {α : Type} [LinearOrderedField α]
    (c : TConductor α) (color : String) : Except DrawError (Path α) :=
  if color = "white" then .error .unsupportedStyling
  else .ok
    { fill := "none", stroke := some color, strokeWidth := some c.width,
      transform :=
        if c.rotation ≠ 0 then some (.rotateAbout c.rotation c.x c.y) else none,
      commands :=
        [ .moveA (c.x - c.crossbar_length / 2, c.y),
          .lineHR c.crossbar_length,
          .moveR (-(c.crossbar_length / 2), 0),
          .lineVR (-(c.vertical_length - c.width / 2)) ] }

/-! ### ArcConductor (ArcBand) -/

/-- Python `cmath.rect(r, phi)`: polar-to-rectangular conversion. -/
noncomputable def rect (r phi : ℝ) : ℝ × ℝ := (r * Real.cos phi, r * Real.sin phi)

structure ArcConductor where
  width : ℝ
  radius : ℝ
  start : ℝ × ℝ
  end_ : ℝ × ℝ
  angle_dir : String

/-- `ArcConductor.__init__`: converts the angles to radians, places the
two endpoints on the circle via `cmath.rect`, and derives the sweep
direction from the comparison of the angles. -/
noncomputable def ArcConductor.init (width radius start_angle end_angle : ℝ) :
    ArcConductor :=
  { width := width, radius := radius,
    start := rect radius (start_angle / 180 * Real.pi),
    end_ := rect radius (end_angle / 180 * Real.pi),
    angle_dir := if start_angle < end_angle then "+" else "-" }

/-- `ArcConductor.draw`: asserts the color is not white, then emits a move
to the start point and a single small (large-arc = false) absolute arc to
the end point. -/
noncomputable def ArcConductor.draw (c : ArcConductor) (color : String) :
    Except DrawError (Path ℝ) :=
  if color = "white" then .error .unsupportedStyling
  else .ok
    { fill := "none", stroke := some color, strokeWidth := some c.width,
      commands := [ .moveA c.start, .arc c.end_ 0 c.radius false true c.angle_dir ] }

/-! ### ArcConductorWithHook (HookedArcBand) -/

structure ArcConductorWithHook where
  width : ℝ
  radius : ℝ
  start_angle : ℝ
  hook_angle : ℝ
  hook_outer_offset : ℝ
  hook_length : ℝ
  hook_width : ℝ

/-- `ArcConductorWithHook.__init__`: converts the two angles to radians,
defaults the hook width to the stroke width, and forces its sign to match
`hook_outer_offset` via `math.copysign`.  No argument is validated. -/
noncomputable def ArcConductorWithHook.init
    (width radius start_angle hook_angle hook_outer_offset hook_length : ℝ)
    (hook_width : Option ℝ) : ArcConductorWithHook :=
  { width := width, radius := radius,
    start_angle := start_angle / 180 * Real.pi,
    hook_angle := hook_angle / 180 * Real.pi,
    hook_outer_offset := hook_outer_offset,
    hook_length := hook_length,
    hook_width := copysign (hook_width.getD width) hook_outer_offset }

/-- Construction as an `Except`, on the same footing as `LConductor.init`:
the Python `__init__` contains no validation and cannot raise, so it
always succeeds. -/
noncomputable def ArcConductorWithHook.construct
    (width radius start_angle hook_angle hook_outer_offset hook_length : ℝ)
    (hook_width : Option ℝ) : Except ConstructionError ArcConductorWithHook :=
  .ok (ArcConductorWithHook.init width radius start_angle hook_angle
        hook_outer_offset hook_length hook_width)

/-- `outer_radius = self.radius + self.width/2` computed in `draw`. -/
noncomputable def ArcConductorWithHook.outerRadius (c : ArcConductorWithHook) : ℝ :=
  c.radius + c.width / 2

/-- `inner_radius = self.radius - self.width/2` computed in `draw`. -/
noncomputable def ArcConductorWithHook.innerRadius (c : ArcConductorWithHook) : ℝ :=
  c.radius - c.width / 2

/-- `start_inner = cmath.rect(inner_radius, self.start_angle)`. -/
noncomputable def ArcConductorWithHook.startInner (c : ArcConductorWithHook) : ℝ × ℝ :=
  rect c.innerRadius c.start_angle

/-- `start_outer = cmath.rect(outer_radius, self.start_angle)`. -/
noncomputable def ArcConductorWithHook.startOuter (c : ArcConductorWithHook) : ℝ × ℝ :=
  rect c.outerRadius c.start_angle

/-- Argument of the first `math.asin` call in `draw`. -/
noncomputable def ArcConductorWithHook.asinArgOuter (c : ArcConductorWithHook) : ℝ :=
  c.hook_outer_offset / c.outerRadius

/-- Argument of the second `math.asin` call in `draw`. -/
noncomputable def ArcConductorWithHook.asinArgInner (c : ArcConductorWithHook) : ℝ :=
  (c.hook_outer_offset - c.hook_width) / c.innerRadius

/-- `end_outer`: the outer hook corner on the outer circle. -/
noncomputable def ArcConductorWithHook.endOuter (c : ArcConductorWithHook) : ℝ × ℝ :=
  rect c.outerRadius (c.hook_angle + Real.arcsin c.asinArgOuter)

/-- `end_inner`: the inner hook corner on the inner circle. -/
noncomputable def ArcConductorWithHook.endInner (c : ArcConductorWithHook) : ℝ × ℝ :=
  rect c.innerRadius (c.hook_angle + Real.arcsin c.asinArgInner)

/-- `hook_inner_corner = end_inner + cmath.rect(hook_length, hook_angle)`. -/
noncomputable def ArcConductorWithHook.hookInnerCorner (c : ArcConductorWithHook) : ℝ × ℝ :=
  c.endInner + rect c.hook_length c.hook_angle

/-- `hook_outer_corner = hook_inner_corner + cmath.rect(hook_width, hook_angle + pi/2)`. -/
noncomputable def ArcConductorWithHook.hookOuterCorner (c : ArcConductorWithHook) : ℝ × ℝ :=
  c.hookInnerCorner + rect c.hook_width (c.hook_angle + Real.pi / 2)

/-- Domain of Python's `math.asin`; outside it the call raises
`ValueError` (a domain error) instead of returning a number. -/
def asinDom (x : ℝ) : Prop := -1 ≤ x ∧ x ≤ 1

noncomputable instance (x : ℝ) : Decidable (asinDom x) :=
  inferInstanceAs (Decidable (-1 ≤ x ∧ x ≤ 1))

/-- `ArcConductorWithHook.draw`: the two `math.asin` calls fail with a
domain error when their argument leaves [-1, 1]; the nonnegative
`hook_length` branch is `assert False`; otherwise the filled closed path
is emitted (with the white fill given a black outline, as in the code). -/
noncomputable def ArcConductorWithHook.draw (c : ArcConductorWithHook)
    (color : String) : Except DrawError (Path ℝ) :=
  if asinDom c.asinArgOuter then
    if asinDom c.asinArgInner then
      if c.hook_length < 0 then
        .ok
          { fill := color,
            stroke := if color = "white" then some ("black") else none,
            strokeWidth := if color = "white" then some OUTLINE_WIDTH else none,
            commands :=
              [ .moveA c.startOuter,
                .arc c.endOuter 0 c.outerRadius false true
                  (if 0 < c.hook_outer_offset then "+" else "-"),
                .lineA c.hookOuterCorner,
                .lineA c.hookInnerCorner,
                .lineA c.endInner,
                .arc c.startInner 0 c.innerRadius false true
                  (if 0 < c.hook_outer_offset then "-" else "+"),
                .close ] }
      else .error .assertionFailed
    else .error .domainError
  else .error .domainError

/-- Euclidean distance from the origin. -/
noncomputable def distOrigin (p : ℝ × ℝ) : ℝ := Real.sqrt (p.1 ^ 2 + p.2 ^ 2)

theorem distOrigin_rect (r phi : ℝ) : distOrigin (rect r phi) = |r| := by
  have h : (r * Real.cos phi) ^ 2 + (r * Real.sin phi) ^ 2 = r ^ 2 := by
    have hs := Real.sin_sq_add_cos_sq phi
    ring_nf
    nlinarith [hs]
  rw [distOrigin, rect]
  simp only [h]
  exact Real.sqrt_sq_eq_abs r

/-! ### Device composition (make_svgs.py / the colorized driver) -/

/-- Conductor roles, from the `ConductorType` enum in make_svgs.py. -/
inductive ConductorType
  | ground
  | neutral
  | lineX
  | lineY
  | lineZ
  deriving DecidableEq

/-- A conductor of any of the seven shape families, at real coordinates. -/
inductive Conductor
  | dC : DConductor ℝ → Conductor
  | iC : IConductor ℝ → Conductor
  | lC : LConductor ℝ → Conductor
  | oC : OConductor ℝ → Conductor
  | tC : TConductor ℝ → Conductor
  | arcC : ArcConductor → Conductor
  | hookC : ArcConductorWithHook → Conductor

/-- An element added to the drawing by a conductor's `draw`. -/
inductive Element
  | path : Path ℝ → Element
  | rect : Rect ℝ → Element
  | circle : Circle ℝ → Element

/-- Dispatch `draw` over the shape families. -/
noncomputable def Conductor.draw (c : Conductor) (color : String) :
    Except DrawError Element :=
  match c with
  | .dC c => .ok (.path (c.draw color))
  | .iC c => .ok (.rect (c.draw color))
  | .lC c => (c.draw color).map .path
  | .oC c => .ok (.circle (c.draw color))
  | .tC c => (c.draw color).map .path
  | .arcC c => (c.draw color).map .path
  | .hookC c => (c.draw color).map .path

/-- The color an element is painted with: the fill, except for stroked
paths (fill "none"), where it is the stroke color. -/
def Element.paintColor : Element → String
  | .path p => if p.fill = "none" then p.stroke.getD "" else p.fill
  | .rect r => r.fill
  | .circle c => c.fill

/-- Modelled from the spec: the fixed role-to-color table (ground=green,
neutral=gray, line-X=black, line-Y=red, line-Z=blue) used by the device
composer when it draws each present conductor.  The composer that passes
these colors is not among the packaged sources: conductors.py's `draw`
methods take the color argument (and reference the driver's
`OUTLINE_WIDTH`), but the copy of make_svgs.py provided embeds older
colorless shape classes, so the role-to-color table and the call
`conductor.draw(drawing, color)` are modelled here from the spec's words. -/
def roleColor : ConductorType → String
  | .ground => "green"
  | .neutral => "gray"
  | .lineX => "black"
  | .lineY => "red"
  | .lineZ => "blue"

/-- Modelled from the spec: the composer's rendering loop, drawing each
present conductor with the color of its role. -/
noncomputable def drawConductors (cs : List (ConductorType × Conductor)) :
    List (ConductorType × Except DrawError Element) :=
  cs.map (fun rc => (rc.1, rc.2.draw (roleColor rc.1)))

/-- Whether a fallible computation succeeded (no exception was raised). -/
def isOk {ε β : Type} : Except ε β → Bool
  | .ok _ => true
  | .error _ => false

/-! ### Claims -/

/-- C2: For every Bend constructed from a start point, an end point, and a
valid sweep direction, the derived boolean x_first equals
((sign(end.x - start.x) == sign(end.y - start.y)) == (sweep_dir == positive)),
the signs being taken by `math.copysign` exactly as the code does. -/
theorem bend_x_first {α : Type} [LinearOrderedField α]
    (width : α) (start end_ : α × α) (sweep_dir : String)
    (h : sweep_dir = "+" ∨ sweep_dir = "-") :
    LConductor.init width start end_ sweep_dir =
      .ok (LConductor.make width start end_ sweep_dir) ∧
    (LConductor.make width start end_ sweep_dir).x_first =
      (decide (copysign 1 (end_.1 - start.1) = copysign 1 (end_.2 - start.2)) ==
        decide (sweep_dir = "+")) := by
  constructor
  · rw [LConductor.init, if_pos h]
  · rcases h with h | h <;> subst h <;>
      by_cases hxy : copysign (1 : α) (end_.1 - start.1) =
          copysign 1 (end_.2 - start.2) <;>
      simp [LConductor.make, hxy]

theorem bend_x_first_witness :
    LConductor.init (α := ℚ) 1 (0, 0) (2, 3) ("+") =
      .ok (LConductor.make 1 (0, 0) (2, 3) ("+")) ∧
    (LConductor.make (α := ℚ) 1 (0, 0) (2, 3) ("+")).x_first =
      (decide (copysign (1 : ℚ) (2 - 0) = copysign 1 (3 - 0)) ==
        decide (("+" : String) = "+")) :=
  bend_x_first 1 (0, 0) (2, 3) ("+") (Or.inl rfl)

/-- C7: Constructing a Bend with any sweep-direction value other than the
two recognized symbols fails at construction time with the
invalid-argument error; either recognized symbol never produces it. -/
theorem bend_sweep_validation {α : Type} [LinearOrderedField α]
    (width : α) (start end_ : α × α) (sweep_dir : String) :
    (¬(sweep_dir = "+" ∨ sweep_dir = "-") →
      LConductor.init width start end_ sweep_dir = .error .invalidArgument) ∧
    ((sweep_dir = "+" ∨ sweep_dir = "-") →
      isOk (LConductor.init width start end_ sweep_dir) = true) := by
  constructor
  · intro h; rw [LConductor.init, if_neg h]
  · intro h; rw [LConductor.init, if_pos h]; rfl

theorem bend_sweep_validation_witness :
    LConductor.init (α := ℚ) 1 (0, 0) (1, 1) ("x") = .error .invalidArgument ∧
    isOk (LConductor.init (α := ℚ) 1 (0, 0) (1, 1) ("+")) = true :=
  ⟨(bend_sweep_validation 1 (0, 0) (1, 1) ("x")).1 (by decide),
   (bend_sweep_validation 1 (0, 0) (1, 1) ("+")).2 (Or.inl rfl)⟩

/-- C5: For every RoundedTab with width = height, draw takes the
width-path branch: horizontal straight sides of length width - height/2
with the semicircular cap on the x-extent end, exactly as when
width > height. -/
theorem rounded_tab_tiebreak {α : Type} [LinearOrderedField α]
    (c : DConductor α) (color : String) (xo yo : α) (h : c.width = c.height) :
    c.commandsAt xo yo = c.widthCommands xo yo ∧
    (c.draw color).commands =
      c.commandsAt (if c.rotation = 0 then c.x else 0)
        (if c.rotation = 0 then c.y else 0) := by
  exact ⟨by rw [DConductor.commandsAt, if_pos h.ge], rfl⟩

theorem rounded_tab_tiebreak_witness :
    (DConductor.mk (2 : ℚ) 2 0 0 0).commandsAt 5 7 =
      (DConductor.mk (2 : ℚ) 2 0 0 0).widthCommands 5 7 ∧
    ((DConductor.mk (2 : ℚ) 2 0 0 0).draw ("black")).commands =
      (DConductor.mk (2 : ℚ) 2 0 0 0).commandsAt
        (if (DConductor.mk (2 : ℚ) 2 0 0 0).rotation = 0 then
          (DConductor.mk (2 : ℚ) 2 0 0 0).x else 0)
        (if (DConductor.mk (2 : ℚ) 2 0 0 0).rotation = 0 then
          (DConductor.mk (2 : ℚ) 2 0 0 0).y else 0) :=
  rounded_tab_tiebreak (DConductor.mk 2 2 0 0 0) ("black") 5 7 rfl

/-- C10: For every HookedArcBand construction, the stored hook width has
the magnitude of the supplied hook_width (or of the stroke width when it
is omitted), its sign is forced to follow hook_outer_offset, and the sign
the caller gives on hook_width itself is ignored. -/
theorem hooked_hook_width_sign
    (width radius start_angle hook_angle hook_outer_offset hook_length : ℝ)
    (hw : Option ℝ) (x : ℝ) :
    |(ArcConductorWithHook.init width radius start_angle hook_angle
        hook_outer_offset hook_length hw).hook_width| = |hw.getD width| ∧
    (0 ≤ hook_outer_offset →
      (ArcConductorWithHook.init width radius start_angle hook_angle
          hook_outer_offset hook_length hw).hook_width = |hw.getD width|) ∧
    (hook_outer_offset < 0 →
      (ArcConductorWithHook.init width radius start_angle hook_angle
          hook_outer_offset hook_length hw).hook_width = -|hw.getD width|) ∧
    (ArcConductorWithHook.init width radius start_angle hook_angle
        hook_outer_offset hook_length (some x)).hook_width =
      (ArcConductorWithHook.init width radius start_angle hook_angle
          hook_outer_offset hook_length (some (-x))).hook_width := by
  refine ⟨?_, ?_, ?_, ?_⟩
  · show |copysign (hw.getD width) hook_outer_offset| = _
    rw [copysign]; split <;> simp [abs_abs]
  · intro h
    show copysign (hw.getD width) hook_outer_offset = _
    rw [copysign, if_neg (not_lt.mpr h)]
  · intro h
    show copysign (hw.getD width) hook_outer_offset = _
    rw [copysign, if_pos h]
  · show copysign x hook_outer_offset = copysign (-x) hook_outer_offset
    rw [copysign, copysign, abs_neg]

theorem hooked_hook_width_sign_witness :
    (ArcConductorWithHook.init 3 1 0 0 (-2) (-1) (some 5)).hook_width =
      -|(some (5 : ℝ)).getD 3| :=
  (hooked_hook_width_sign 3 1 0 0 (-2) (-1) (some 5) 5).2.2.1 (by norm_num)

/-- Helper: with a nonnegative hook length, drawing a HookedArcBand always
fails (assertion, unless an asin domain error precedes it). -/
theorem draw_fails_of_nonneg_hook_length (c : ArcConductorWithHook)
    (color : String) (h : 0 ≤ c.hook_length) : isOk (c.draw color) = false := by
  rw [ArcConductorWithHook.draw]
  by_cases h1 : asinDom c.asinArgOuter
  · rw [if_pos h1]
    by_cases h2 : asinDom c.asinArgInner
    · rw [if_pos h2, if_neg (not_lt.mpr h)]; rfl
    · rw [if_neg h2]; rfl
  · rw [if_neg h1]; rfl

theorem draw_no_assert_of_neg_hook_length (c : ArcConductorWithHook)
    (color : String) (h : c.hook_length < 0) :
    c.draw color ≠ .error .assertionFailed := by
  rw [ArcConductorWithHook.draw]
  by_cases h1 : asinDom c.asinArgOuter
  · rw [if_pos h1]
    by_cases h2 : asinDom c.asinArgInner
    · rw [if_pos h2, if_pos h]
      intro hcontra; exact Except.noConfusion hcontra
    · rw [if_neg h2]
      intro hcontra; exact DrawError.noConfusion (Except.error.inj hcontra)
  · rw [if_neg h1]
    intro hcontra; exact DrawError.noConfusion (Except.error.inj hcontra)

/-- C1 (amended): HookedArcBand construction always succeeds, whatever the
hook_length; the unsupported-case failure for a nonnegative hook_length
happens at draw time (the drawing always fails then, with the assertion
unless an asin domain error precedes it), and a negative hook_length
never triggers that assertion. -/
theorem hooked_hook_length_check
    (width radius start_angle hook_angle hook_outer_offset hook_length : ℝ)
    (hw : Option ℝ) (color : String) :
    isOk (ArcConductorWithHook.construct width radius start_angle hook_angle
      hook_outer_offset hook_length hw) = true ∧
    (0 ≤ hook_length →
      isOk ((ArcConductorWithHook.init width radius start_angle hook_angle
        hook_outer_offset hook_length hw).draw color) = false) ∧
    (hook_length < 0 →
      (ArcConductorWithHook.init width radius start_angle hook_angle
        hook_outer_offset hook_length hw).draw color ≠
          .error .assertionFailed) := by
  refine ⟨rfl, ?_, ?_⟩
  · intro h; exact draw_fails_of_nonneg_hook_length _ color h
  · intro h; exact draw_no_assert_of_neg_hook_length _ color h

theorem hooked_hook_length_check_witness :
    isOk (ArcConductorWithHook.construct 1 1 0 0 0 1 none) = true ∧
    isOk ((ArcConductorWithHook.init 1 1 0 0 0 1 none).draw ("black")) = false ∧
    (ArcConductorWithHook.init 1 1 0 0 0 (-1) none).draw ("black") ≠
      .error .assertionFailed :=
  ⟨(hooked_hook_length_check 1 1 0 0 0 1 none ("black")).1,
   (hooked_hook_length_check 1 1 0 0 0 1 none ("black")).2.1 (by norm_num),
   (hooked_hook_length_check 1 1 0 0 0 (-1) none ("black")).2.2 (by norm_num)⟩

/-- C1 counterexample: the claim as stated is false, since the constructor
does not reject a nonnegative hook_length: construction with
hook_length = 1 succeeds. -/
theorem hooked_construct_nonneg_cex :
    isOk (ArcConductorWithHook.construct 1 1 0 0 0 1 none) = true := rfl

/-- C3: Whenever either derived asin argument of a HookedArcBand falls
outside [-1, 1] — in particular whenever the outer radius is positive and
smaller than the magnitude of hook_outer_offset — draw fails with a
domain error (and hence returns no coordinates at all; in this exact-real
model no NaN exists, the out-of-domain call itself is the failure). -/
theorem hooked_asin_domain (c : ArcConductorWithHook) (color : String) :
    ((¬asinDom c.asinArgOuter ∨ ¬asinDom c.asinArgInner) →
      c.draw color = .error .domainError) ∧
    (0 < c.outerRadius → c.outerRadius < |c.hook_outer_offset| →
      c.draw color = .error .domainError) := by
  have hmain : (¬asinDom c.asinArgOuter ∨ ¬asinDom c.asinArgInner) →
      c.draw color = .error .domainError := by
    intro h
    rw [ArcConductorWithHook.draw]
    rcases h with h | h
    · rw [if_neg h]
    · by_cases h1 : asinDom c.asinArgOuter
      · rw [if_pos h1, if_neg h]
      · rw [if_neg h1]
  refine ⟨hmain, fun hpos hlt => hmain (Or.inl ?_)⟩
  rw [asinDom]
  intro hdom
  have h1 : |c.asinArgOuter| ≤ 1 := abs_le.mpr hdom
  have h2 : |c.asinArgOuter| = |c.hook_outer_offset| / c.outerRadius := by
    rw [ArcConductorWithHook.asinArgOuter, abs_div, abs_of_pos hpos]
  rw [h2, div_le_one hpos] at h1
  exact absurd hlt (not_lt.mpr h1)

theorem hooked_asin_domain_witness :
    (ArcConductorWithHook.init 0 1 0 0 2 (-1) none).draw ("black") =
      .error .domainError :=
  (hooked_asin_domain (ArcConductorWithHook.init 0 1 0 0 2 (-1) none)
      ("black")).2
    (by norm_num [ArcConductorWithHook.outerRadius, ArcConductorWithHook.init])
    (by norm_num [ArcConductorWithHook.outerRadius, ArcConductorWithHook.init,
      abs_two])

/-- C6 (amended): for every HookedArcBand for which draw succeeds, the two
arc endpoints computed on the outer circle lie at distance
|outer_radius| from the origin and the two computed on the inner circle
at distance |inner_radius| (the absolute values and the radii coincide
whenever the radii are nonnegative). -/
theorem hooked_endpoints_on_circles (c : ArcConductorWithHook) (color : String)
    (h : isOk (c.draw color) = true) :
    distOrigin c.startOuter = |c.outerRadius| ∧
    distOrigin c.endOuter = |c.outerRadius| ∧
    distOrigin c.startInner = |c.innerRadius| ∧
    distOrigin c.endInner = |c.innerRadius| :=
  ⟨distOrigin_rect _ _, distOrigin_rect _ _, distOrigin_rect _ _,
   distOrigin_rect _ _⟩

theorem hooked_endpoints_on_circles_witness :
    distOrigin (ArcConductorWithHook.init 0 2 0 0 0 (-1) none).startOuter =
      |(ArcConductorWithHook.init 0 2 0 0 0 (-1) none).outerRadius| ∧
    distOrigin (ArcConductorWithHook.init 0 2 0 0 0 (-1) none).endOuter =
      |(ArcConductorWithHook.init 0 2 0 0 0 (-1) none).outerRadius| ∧
    distOrigin (ArcConductorWithHook.init 0 2 0 0 0 (-1) none).startInner =
      |(ArcConductorWithHook.init 0 2 0 0 0 (-1) none).innerRadius| ∧
    distOrigin (ArcConductorWithHook.init 0 2 0 0 0 (-1) none).endInner =
      |(ArcConductorWithHook.init 0 2 0 0 0 (-1) none).innerRadius| := by
  refine hooked_endpoints_on_circles _ ("black") ?_
  rw [ArcConductorWithHook.draw, if_pos ?_, if_pos ?_, if_pos ?_]
  · rfl
  · show (ArcConductorWithHook.init 0 2 0 0 0 (-1) none).hook_length < 0
    norm_num [ArcConductorWithHook.init]
  · show asinDom (ArcConductorWithHook.init 0 2 0 0 0 (-1) none).asinArgInner
    norm_num [asinDom, ArcConductorWithHook.asinArgInner,
      ArcConductorWithHook.innerRadius, ArcConductorWithHook.init, copysign]
  · show asinDom (ArcConductorWithHook.init 0 2 0 0 0 (-1) none).asinArgOuter
    norm_num [asinDom, ArcConductorWithHook.asinArgOuter,
      ArcConductorWithHook.outerRadius, ArcConductorWithHook.init]

/-- C6 counterexample: with width 2 and radius 0 the inner radius is -1;
draw succeeds, yet the start point computed on the inner circle lies at
distance 1, not -1, from the origin, so the distances equal the radii
only up to absolute value. -/
theorem hooked_endpoints_cex :
    isOk ((ArcConductorWithHook.init 2 0 0 0 0 (-1) (some 1)).draw ("black")) =
      true ∧
    distOrigin (ArcConductorWithHook.init 2 0 0 0 0 (-1) (some 1)).startInner ≠
      (ArcConductorWithHook.init 2 0 0 0 0 (-1) (some 1)).innerRadius := by
  constructor
  · rw [ArcConductorWithHook.draw, if_pos ?_, if_pos ?_, if_pos ?_]
    · rfl
    · show (ArcConductorWithHook.init 2 0 0 0 0 (-1) (some 1)).hook_length < 0
      norm_num [ArcConductorWithHook.init]
    · show asinDom (ArcConductorWithHook.init 2 0 0 0 0 (-1) (some 1)).asinArgInner
      norm_num [asinDom, ArcConductorWithHook.asinArgInner,
        ArcConductorWithHook.innerRadius, ArcConductorWithHook.init, copysign]
    · show asinDom (ArcConductorWithHook.init 2 0 0 0 0 (-1) (some 1)).asinArgOuter
      norm_num [asinDom, ArcConductorWithHook.asinArgOuter,
        ArcConductorWithHook.outerRadius, ArcConductorWithHook.init]
  · rw [show distOrigin (ArcConductorWithHook.init 2 0 0 0 0 (-1)
        (some 1)).startInner =
        |(ArcConductorWithHook.init 2 0 0 0 0 (-1) (some 1)).innerRadius| from
      distOrigin_rect _ _]
    rw [show (ArcConductorWithHook.init 2 0 0 0 0 (-1) (some 1)).innerRadius =
        -1 by norm_num [ArcConductorWithHook.innerRadius,
          ArcConductorWithHook.init]]
    norm_num

/-- C4: For every ArcBand, the derived sweep direction is positive iff
end_angle > start_angle (otherwise negative), and every arc command the
draw emits has its large-arc flag false, so the rendered arc is the SVG
minor arc and spans at most 180 degrees. -/
theorem arcband_direction (width radius start_angle end_angle : ℝ)
    (color : String) (p : Path ℝ)
    (h : (ArcConductor.init width radius start_angle end_angle).draw color =
      .ok p) :
    ((ArcConductor.init width radius start_angle end_angle).angle_dir = "+" ↔
      start_angle < end_angle) ∧
    p.noLargeArc = true := by
  constructor
  · by_cases hlt : start_angle < end_angle
    · simp [ArcConductor.init, hlt]
    · simp [ArcConductor.init, hlt]
  · rw [ArcConductor.draw] at h
    by_cases hc : color = "white"
    · rw [if_pos hc] at h
      exact Except.noConfusion h
    · rw [if_neg hc] at h
      have hp := Except.ok.inj h
      subst hp
      rfl

theorem arcband_direction_witness :
    ((ArcConductor.init 1 1 0 90).angle_dir = "+" ↔ (0 : ℝ) < 90) ∧
    Path.noLargeArc
      { fill := "none", stroke := some ("black"),
        strokeWidth := some (ArcConductor.init 1 1 0 90).width,
        commands :=
          [ .moveA (ArcConductor.init 1 1 0 90).start,
            .arc (ArcConductor.init 1 1 0 90).end_ 0
              (ArcConductor.init 1 1 0 90).radius false true
              (ArcConductor.init 1 1 0 90).angle_dir ] } = true :=
  arcband_direction 1 1 0 90 ("black") _ rfl

/-- C8 (amended): drawing a Bend, Cross or ArcBand with color white is
rejected as a caller error (the unsupported-styling assertion), but a
HookedArcBand never produces that error on white: its draw renders the
white fill with a black outline stroke instead. -/
theorem white_styling (lc : LConductor ℝ) (tc : TConductor ℝ)
    (ac : ArcConductor) (hc : ArcConductorWithHook) :
    lc.draw ("white") = .error .unsupportedStyling ∧
    tc.draw ("white") = .error .unsupportedStyling ∧
    ac.draw ("white") = .error .unsupportedStyling ∧
    hc.draw ("white") ≠ .error .unsupportedStyling := by
  refine ⟨?_, ?_, ?_, ?_⟩
  · rw [LConductor.draw, if_pos rfl]
  · rw [TConductor.draw, if_pos rfl]
  · rw [ArcConductor.draw, if_pos rfl]
  · rw [ArcConductorWithHook.draw]
    by_cases h1 : asinDom hc.asinArgOuter
    · rw [if_pos h1]
      by_cases h2 : asinDom hc.asinArgInner
      · rw [if_pos h2]
        by_cases h3 : hc.hook_length < 0
        · rw [if_pos h3]
          intro hcontra; exact Except.noConfusion hcontra
        · rw [if_neg h3]
          intro hcontra; exact DrawError.noConfusion (Except.error.inj hcontra)
      · rw [if_neg h2]
        intro hcontra; exact DrawError.noConfusion (Except.error.inj hcontra)
    · rw [if_neg h1]
      intro hcontra; exact DrawError.noConfusion (Except.error.inj hcontra)

theorem white_styling_witness :
    (LConductor.make (α := ℝ) 1 (0, 0) (1, 1) ("+")).draw ("white") =
      .error .unsupportedStyling ∧
    (TConductor.mk (1 : ℝ) 1 1 0 0 0).draw ("white") =
      .error .unsupportedStyling ∧
    (ArcConductor.init 1 1 0 90).draw ("white") =
      .error .unsupportedStyling ∧
    (ArcConductorWithHook.init 1 1 0 0 0 (-1) none).draw ("white") ≠
      .error .unsupportedStyling :=
  white_styling (LConductor.make 1 (0, 0) (1, 1) ("+"))
    (TConductor.mk 1 1 1 0 0 0) (ArcConductor.init 1 1 0 90)
    (ArcConductorWithHook.init 1 1 0 0 0 (-1) none)

/-- C8 counterexample: the claim as stated is false, since requesting
white on a HookedArcBand is not rejected: with valid hook geometry its
draw succeeds. -/
theorem white_styling_cex :
    isOk ((ArcConductorWithHook.init 0 1 0 0 0 (-1) none).draw ("white")) =
      true := by
  rw [ArcConductorWithHook.draw, if_pos ?_, if_pos ?_, if_pos ?_]
  · rfl
  · show (ArcConductorWithHook.init 0 1 0 0 0 (-1) none).hook_length < 0
    norm_num [ArcConductorWithHook.init]
  · show asinDom (ArcConductorWithHook.init 0 1 0 0 0 (-1) none).asinArgInner
    norm_num [asinDom, ArcConductorWithHook.asinArgInner,
      ArcConductorWithHook.innerRadius, ArcConductorWithHook.init, copysign]
  · show asinDom (ArcConductorWithHook.init 0 1 0 0 0 (-1) none).asinArgOuter
    norm_num [asinDom, ArcConductorWithHook.asinArgOuter,
      ArcConductorWithHook.outerRadius, ArcConductorWithHook.init]

theorem Conductor.draw_paintColor (c : Conductor) (col : String)
    (el : Element) (hcol : ¬col = "none") (h : c.draw col = .ok el) :
    el.paintColor = col := by
  cases c with
  | dC c =>
    simp only [Conductor.draw] at h
    have hp := Except.ok.inj h
    subst hp
    simp [Element.paintColor, DConductor.draw, hcol]
  | iC c =>
    simp only [Conductor.draw] at h
    have hp := Except.ok.inj h
    subst hp
    simp [Element.paintColor, IConductor.draw]
  | lC c =>
    simp only [Conductor.draw] at h
    rw [LConductor.draw] at h
    by_cases hw : col = "white"
    · rw [if_pos hw] at h
      exact Except.noConfusion h
    · rw [if_neg hw] at h
      have hp := Except.ok.inj h
      subst hp
      simp [Element.paintColor]
  | oC c =>
    simp only [Conductor.draw] at h
    have hp := Except.ok.inj h
    subst hp
    simp [Element.paintColor, OConductor.draw]
  | tC c =>
    simp only [Conductor.draw] at h
    rw [TConductor.draw] at h
    by_cases hw : col = "white"
    · rw [if_pos hw] at h
      exact Except.noConfusion h
    · rw [if_neg hw] at h
      have hp := Except.ok.inj h
      subst hp
      simp [Element.paintColor]
  | arcC c =>
    simp only [Conductor.draw] at h
    rw [ArcConductor.draw] at h
    by_cases hw : col = "white"
    · rw [if_pos hw] at h
      exact Except.noConfusion h
    · rw [if_neg hw] at h
      have hp := Except.ok.inj h
      subst hp
      simp [Element.paintColor]
  | hookC c =>
    simp only [Conductor.draw] at h
    rw [ArcConductorWithHook.draw] at h
    by_cases h1 : asinDom c.asinArgOuter
    · rw [if_pos h1] at h
      by_cases h2 : asinDom c.asinArgInner
      · rw [if_pos h2] at h
        by_cases h3 : c.hook_length < 0
        · rw [if_pos h3] at h
          have hp := Except.ok.inj h
          subst hp
          simp [Element.paintColor, hcol]
        · rw [if_neg h3] at h
          exact Except.noConfusion h
      · rw [if_neg h2] at h
        exact Except.noConfusion h
    · rw [if_neg h1] at h
      exact Except.noConfusion h

/-- C9: in the (spec-modelled) rendering loop of the device composer,
every element successfully drawn for a present conductor is painted with
the color of its role from the fixed role-to-color table. -/
theorem conductor_colors (cs : List (ConductorType × Conductor))
    (ρ : ConductorType) (ex : Except DrawError Element) (el : Element)
    (hmem : (ρ, ex) ∈ drawConductors cs) (hok : ex = .ok el) :
    el.paintColor = roleColor ρ := by
  rw [drawConductors, List.mem_map] at hmem
  obtain ⟨⟨ρ', c⟩, hin, heq⟩ := hmem
  have h1 : ρ' = ρ := congrArg Prod.fst heq
  have h2 : Conductor.draw c (roleColor ρ') = ex := congrArg Prod.snd heq
  subst h1
  rw [hok] at h2
  exact Conductor.draw_paintColor c (roleColor ρ') el
    (by cases ρ' <;> decide) h2

theorem conductor_colors_witness :
    Element.paintColor (Element.circle ((OConductor.init (19 / 100 : ℝ) 0
      (-(343 / 1000))).draw ("green"))) = roleColor ConductorType.ground :=
  conductor_colors
    [(ConductorType.ground,
      Conductor.oC (OConductor.init (19 / 100) 0 (-(343 / 1000))))]
    ConductorType.ground
    (Conductor.draw (Conductor.oC (OConductor.init (19 / 100) 0
      (-(343 / 1000)))) (roleColor ConductorType.ground))
    (Element.circle ((OConductor.init (19 / 100 : ℝ) 0
      (-(343 / 1000))).draw ("green")))
    (List.mem_singleton.mpr rfl) rfl

end NEMA
